import Mathlib

/-!
Verification development for the nebulet container reconciler.

The definitions below are a shallow embedding of the repository code:
  - `Model`, `ContainerStatus`, `ContainerResponse`, `CreateContainerRequest`
    come from src/models/v1/container.rs;
  - `update_container_status`, `process_single_container`, `process_containers`,
    `run_main_loop`, `shutdown` come from src/services/processor.rs;
  - `create_container` comes from src/api/handlers.rs.

External collaborators are modelled as oracles passed as parameters:
  - the Docker runtime driver (bollard, wrapped by src/services/docker.rs) is a
    `DockerService` record of pure functions returning `Except`; the calls a
    code path makes to it are recorded in a `DriverCall` trace;
  - the SQL store (sea_orm) is a `Store` (list of rows keyed by `id`) with the
    by-primary-key find, update and delete operations the code uses;
  - the wall clock (chrono, `Utc::now().to_rfc3339()`) is a `now : String`
    parameter, one value per reconcile pass;
  - the RFC 3339 timestamp parser of the chrono library
    (`DateTime::parse_from_rfc3339` followed by `with_timezone(&Utc)`) is a
    `parse : String → Option String` parameter.

Tracing statements of the processor (`info!`, `warn!`, `error!`) are recorded
in a `logs` trace as level-tagged strings, one entry per source log statement,
in source order. Logging internal to the DockerService wrapper is behind the
oracle boundary and is not traced.
-/

/-- API request body (src/models/v1/container.rs, `CreateContainerRequest`). -/
structure CreateContainerRequest where
  name : String
  image : String
deriving DecidableEq

/-- API status enumeration (src/models/v1/container.rs, `ContainerStatus`). -/
inductive ContainerStatus where
  | Pending
  | Created
  | Running
  | Stopped
  | Failed
  | Removing
deriving DecidableEq

/-- `ContainerStatus::as_str` (src/models/v1/container.rs). -/
def ContainerStatus.as_str : ContainerStatus → String
  | .Pending => "Pending"
  | .Created => "Created"
  | .Running => "Running"
  | .Stopped => "Stopped"
  | .Failed => "Failed"
  | .Removing => "Removing"

/-- Database row (src/models/v1/container.rs, `Model`). Timestamps are the
persisted RFC 3339 strings, kept as strings exactly as in the schema. -/
structure Model where
  id : String
  name : String
  image : String
  status : String
  docker_id : Option String
  created_at : String
  updated_at : String
deriving DecidableEq

/-- API response body (src/models/v1/container.rs, `ContainerResponse`).
The two `DateTime<Utc>` fields are modelled as the normalized timestamp
strings produced by the parse oracle. -/
structure ContainerResponse where
  id : String
  name : String
  image : String
  status : ContainerStatus
  created_at : String
  updated_at : String
deriving DecidableEq

/-- The containers table: one row per record, `id` is the primary key. -/
abbrev Store := List Model

/-- `ContainerEntity::find_by_id(id).one(db)`: first row whose primary key
matches. -/
def findById : Store → String → Option Model
  | [], _ => none
  | r :: rest, i => if r.id = i then some r else findById rest i

/-- `ActiveModel::update(db)`: replace the row whose primary key equals the
primary key of the updated row. -/
def updateById : Store → Model → Store
  | [], _ => []
  | r :: rest, m => (if r.id = m.id then m else r) :: updateById rest m

/-- `ContainerEntity::delete_by_id(id).exec(db)`: drop the row with that
primary key. -/
def deleteById : Store → String → Store
  | [], _ => []
  | r :: rest, i => if r.id = i then deleteById rest i else r :: deleteById rest i

/-- One invocation of the runtime driver, as observed at the boundary of
src/services/docker.rs. -/
inductive DriverCall where
  | create (name image : String)
  | start (docker_id : String)
  | stop (docker_id : String)
  | remove (docker_id : String)
  | inspect (docker_id : String)
deriving DecidableEq

/-- Oracle for the runtime driver (src/services/docker.rs `DockerService`):
each method either succeeds with its value or fails with an error message. -/
structure DockerService where
  create_container : String → String → Except String String
  start_container : String → Except String Unit
  stop_container : String → Except String Unit
  remove_container : String → Except String Unit
  get_container_status : String → Except String String

/-- Outcome of processing one record: the store afterwards, the driver calls
made, the processor log entries emitted, and the error propagated to the
caller (`Err` of `process_single_container`), if any. -/
structure StepResult where
  db : Store
  calls : List DriverCall
  logs : List String
  err : Option String
deriving DecidableEq

/-- `ProcessorService::update_container_status` (src/services/processor.rs):
re-fetch the row by id (error if absent), set `status` and `updated_at`, set
`docker_id` only when a new one is supplied, and write the row back. -/
def update_container_status (db : Store) (now : String) (container_id : String)
    (status : String) (docker_id : Option String) : Except String Store :=
  match findById db container_id with
  | none => .error "Container not found"
  | some container =>
    .ok (updateById db
      { container with
        status := status
        updated_at := now
        docker_id := match docker_id with
          | some d => some d
          | none => container.docker_id })

/-- `ProcessorService::process_single_container` (src/services/processor.rs):
the status dispatch for one record, against the current store `db`. -/
def process_single_container (docker : DockerService) (now : String)
    (db : Store) (container : Model) : StepResult :=
  if container.status = "Pending" then
    match docker.create_container container.name container.image with
    | .ok docker_id =>
      match update_container_status db now container.id "Created" (some docker_id) with
      | .ok db2 =>
        { db := db2, calls := [.create container.name container.image]
          logs := ["info:creating_container_in_docker", "info:updated_container_status",
                   "info:container_created_successfully"]
          err := none }
      | .error e =>
        { db := db, calls := [.create container.name container.image]
          logs := ["info:creating_container_in_docker"], err := some e }
    | .error _ =>
      match update_container_status db now container.id "Failed" none with
      | .ok db2 =>
        { db := db2, calls := [.create container.name container.image]
          logs := ["info:creating_container_in_docker", "error:failed_to_create_container",
                   "info:updated_container_status"]
          err := none }
      | .error e =>
        { db := db, calls := [.create container.name container.image]
          logs := ["info:creating_container_in_docker", "error:failed_to_create_container"]
          err := some e }
  else if container.status = "Created" then
    match container.docker_id with
    | some docker_id =>
      match docker.start_container docker_id with
      | .error _ =>
        match update_container_status db now container.id "Failed" none with
        | .ok db2 =>
          { db := db2, calls := [.start docker_id]
            logs := ["info:starting_container", "error:failed_to_start_container",
                     "info:updated_container_status"]
            err := none }
        | .error e =>
          { db := db, calls := [.start docker_id]
            logs := ["info:starting_container", "error:failed_to_start_container"]
            err := some e }
      | .ok _ =>
        match update_container_status db now container.id "Running" none with
        | .ok db2 =>
          { db := db2, calls := [.start docker_id]
            logs := ["info:starting_container", "info:updated_container_status",
                     "info:container_started_successfully"]
            err := none }
        | .error e =>
          { db := db, calls := [.start docker_id]
            logs := ["info:starting_container"], err := some e }
    | none => { db := db, calls := [], logs := [], err := none }
  else if container.status = "Running" then
    match container.docker_id with
    | some docker_id =>
      match docker.get_container_status docker_id with
      | .error e => { db := db, calls := [.inspect docker_id], logs := [], err := some e }
      | .ok status =>
        if status = "running" then
          { db := db, calls := [.inspect docker_id], logs := [], err := none }
        else
          match update_container_status db now container.id status none with
          | .ok db2 =>
            { db := db2, calls := [.inspect docker_id]
              logs := ["info:updated_container_status"], err := none }
          | .error e =>
            { db := db, calls := [.inspect docker_id], logs := [], err := some e }
    | none => { db := db, calls := [], logs := [], err := none }
  else if container.status = "Removing" then
    match container.docker_id with
    | some docker_id =>
      let stopLog := match docker.stop_container docker_id with
        | .error _ => ["warn:failed_to_stop_container"]
        | .ok _ => []
      let removeLog := match docker.remove_container docker_id with
        | .error _ => ["warn:failed_to_remove_container"]
        | .ok _ => []
      { db := deleteById db container.id
        calls := [.stop docker_id, .remove docker_id]
        logs := ["info:removing_container"] ++ stopLog ++ removeLog
                  ++ ["info:container_removed_from_database"]
        err := none }
    | none =>
      { db := deleteById db container.id, calls := []
        logs := ["info:container_removed_from_database"], err := none }
  else if container.status = "Stopped" ∨ container.status = "Failed" then
    match container.docker_id with
    | some docker_id =>
      let removeLog := match docker.remove_container docker_id with
        | .error _ => ["warn:failed_to_remove_container"]
        | .ok _ => []
      { db := db, calls := [.remove docker_id], logs := removeLog, err := none }
    | none => { db := db, calls := [], logs := [], err := none }
  else
    { db := db, calls := [], logs := ["warn:unknown_container_status"], err := none }

/-- Outcome of one tick (`process_containers`): the store afterwards and the
per-record errors that were caught and logged at the record boundary. -/
structure TickResult where
  db : Store
  errors : List (String × String)
deriving DecidableEq

/-- The `for container in containers` loop body of
`ProcessorService::process_containers` (src/services/processor.rs): process
each listed record against the evolving store; a per-record error is recorded
(logged in the source) and the loop continues. -/
def processLoop (docker : DockerService) (now : String) :
    List Model → Store → List (String × String) → TickResult
  | [], db, errs => { db := db, errors := errs }
  | c :: rest, db, errs =>
    let r := process_single_container docker now db c
    processLoop docker now rest r.db
      (errs ++ match r.err with
        | some e => [(c.id, e)]
        | none => [])

/-- `ProcessorService::process_containers` (src/services/processor.rs): list
all records, then process each one in order. -/
def process_containers (docker : DockerService) (now : String) (db : Store) :
    TickResult :=
  processLoop docker now db db []

/-- `ProcessorService::run_main_loop` (src/services/processor.rs), with the
timer abstracted away and fuel bounding the number of iterations modelled.
`signalAt n` is the value of the shared `shutdown_signal` flag at the check
performed before tick number `n`. Returns the final store, the number of
ticks executed, and whether the loop returned via the shutdown break (the
source loop only ever returns `Ok(())`; `false` marks fuel exhaustion of the
model, not a source behaviour). -/
def run_main_loop (docker : DockerService) (now : String) (signalAt : Nat → Bool) :
    Nat → Store → Nat → Store × Nat × Bool
  | 0, db, ticksDone => (db, ticksDone, false)
  | fuel + 1, db, ticksDone =>
    if signalAt ticksDone then
      (db, ticksDone, true)
    else
      run_main_loop docker now signalAt fuel
        (process_containers docker now db).db (ticksDone + 1)

/-- `ProcessorService::shutdown` (src/services/processor.rs): set the shared
shutdown flag to true. -/
def shutdown (_shutdown_signal : Bool) : Bool :=
  true

/-- `impl From<CreateContainerRequest> for Model` (src/models/v1/container.rs):
a fresh record starts as `Pending` with no docker id; the uuid and the
current time are inputs of the model. -/
def model_from_create_request (uuid now : String)
    (api_model : CreateContainerRequest) : Model :=
  { id := uuid
    name := api_model.name
    image := api_model.image
    status := ContainerStatus.Pending.as_str
    docker_id := none
    created_at := now
    updated_at := now }

/-- The status match inside `impl From<Model> for ContainerResponse`
(src/models/v1/container.rs): any string outside the six enumeration names
falls back to `Pending`. -/
def status_of_string (s : String) : ContainerStatus :=
  if s = "Pending" then .Pending
  else if s = "Created" then .Created
  else if s = "Running" then .Running
  else if s = "Stopped" then .Stopped
  else if s = "Failed" then .Failed
  else if s = "Removing" then .Removing
  else .Pending

/-- `impl From<Model> for ContainerResponse` (src/models/v1/container.rs):
`parse` is the chrono RFC 3339 parser oracle (already normalized to Utc) and
`now` the current time used by the `unwrap_or_else` fallback. -/
def response_from_model (parse : String → Option String) (now : String)
    (model : Model) : ContainerResponse :=
  { id := model.id
    name := model.name
    image := model.image
    status := status_of_string model.status
    created_at := (parse model.created_at).getD now
    updated_at := (parse model.updated_at).getD now }

/-- `create_container` handler (src/api/handlers.rs): synchronously calls the
driver, builds the record from the request, overwrites its status to
`Created` or `Failed` and its docker id with the driver result, inserts it,
re-fetches it, and only then turns a driver failure into a 500 response (the
row stays persisted). Returns the store afterwards, the driver calls made on
the request path, and the HTTP result. `uuid` is the generated record id,
`now` the creation timestamp, `parse`/`rnow` the oracles of the response
conversion. -/
def create_container (docker : DockerService) (parse : String → Option String)
    (uuid now rnow : String) (db : Store) (request : CreateContainerRequest) :
    Store × List DriverCall × Except (Nat × String) (Nat × ContainerResponse) :=
  let docker_result := docker.create_container request.name request.image
  let container_model := model_from_create_request uuid now request
  let docker_id := match docker_result with
    | .ok d => some d
    | .error _ => none
  let status := match docker_result with
    | .ok _ => "Created"
    | .error _ => "Failed"
  let inserted := { container_model with status := status, docker_id := docker_id }
  let db2 := db ++ [inserted]
  match findById db2 inserted.id with
  | none =>
    (db2, [.create request.name request.image], .error (500, "Database error"))
  | some fetched =>
    match docker_result with
    | .error _ =>
      (db2, [.create request.name request.image], .error (500, "Docker error"))
    | .ok _ =>
      (db2, [.create request.name request.image],
        .ok (201, response_from_model parse rnow fetched))

/-- Driver oracle whose every method succeeds; creation returns the handle
given as `handle`, inspection reports the state given as `state`. -/
def drvOk (handle state : String) : DockerService :=
  { create_container := fun _ _ => .ok handle
    start_container := fun _ => .ok ()
    stop_container := fun _ => .ok ()
    remove_container := fun _ => .ok ()
    get_container_status := fun _ => .ok state }

/-- Driver oracle whose every method fails with the message "boom". -/
def drvFail : DockerService :=
  { create_container := fun _ _ => .error "boom"
    start_container := fun _ => .error "boom"
    stop_container := fun _ => .error "boom"
    remove_container := fun _ => .error "boom"
    get_container_status := fun _ => .error "boom" }

/-- Driver oracle that fails to stop but succeeds at everything else;
inspection reports "running". -/
def drvStopFails : DockerService :=
  { create_container := fun _ _ => .ok "rt-1"
    start_container := fun _ => .ok ()
    stop_container := fun _ => .error "boom"
    remove_container := fun _ => .ok ()
    get_container_status := fun _ => .ok "running" }

/-- A timestamp parser oracle that accepts every string unchanged. -/
def parseAll : String → Option String :=
  fun s => some s

/-- A timestamp parser oracle that rejects every string. -/
def parseNone : String → Option String :=
  fun _ => none

/-- Concrete record fixture in a given status. -/
def rec1 (status : String) (docker_id : Option String) : Model :=
  { id := "c1", name := "web", image := "nginx", status := status
    docker_id := docker_id, created_at := "t0", updated_at := "t0" }

/-- Concrete second record fixture in a given status. -/
def rec2 (status : String) (docker_id : Option String) : Model :=
  { id := "c2", name := "db", image := "postgres", status := status
    docker_id := docker_id, created_at := "t0", updated_at := "t0" }

lemma findById_id (s : Store) (i : String) (m : Model)
    (h : findById s i = some m) : m.id = i := by
  induction s with
  | nil => simp [findById] at h
  | cons r rest ih =>
    by_cases hr : r.id = i
    · simp [findById, hr] at h
      rw [← h]
      exact hr
    · simp [findById, hr] at h
      exact ih h

lemma findById_updateById_ne (s : Store) (m : Model) (y : String)
    (h : y ≠ m.id) :
    findById (updateById s m) y = findById s y := by
  induction s with
  | nil => rfl
  | cons r rest ih =>
    by_cases hr : r.id = m.id
    · have h1 : ¬ m.id = y := fun hh => h hh.symm
      have h2 : ¬ r.id = y := fun hh => h (hr ▸ hh).symm
      simp only [updateById, findById, if_pos hr, if_neg h1, if_neg h2]
      exact ih
    · simp only [updateById, findById, if_neg hr]
      by_cases hy : r.id = y
      · simp [findById, hy]
      · simp [findById, hy, ih]

lemma findById_updateById_self (s : Store) (m : Model) :
    findById (updateById s m) m.id = (findById s m.id).map (fun _ => m) := by
  induction s with
  | nil => rfl
  | cons r rest ih =>
    by_cases hr : r.id = m.id
    · simp [updateById, findById, hr]
    · simp only [updateById, findById, if_neg hr]
      simp [hr, ih]

lemma findById_deleteById (s : Store) (i y : String) :
    findById (deleteById s i) y = if y = i then none else findById s y := by
  induction s with
  | nil => simp [deleteById, findById]
  | cons r rest ih =>
    by_cases hr : r.id = i
    · simp only [deleteById, if_pos hr]
      rw [ih]
      by_cases hy : y = i
      · simp [hy]
      · have : ¬ r.id = y := fun hh => hy ((hh.symm.trans hr))
        simp [findById, hy, this]
    · simp only [deleteById, if_neg hr, findById]
      by_cases hy : r.id = y
      · have : ¬ y = i := fun hh => hr (hy.trans hh)
        simp [hy, this]
      · simp [hy, ih]

lemma deleteById_updateById_self (s : Store) (m : Model) :
    deleteById (updateById s m) m.id = deleteById s m.id := by
  induction s with
  | nil => rfl
  | cons r rest ih =>
    by_cases hr : r.id = m.id
    · simp [updateById, deleteById, hr, ih]
    · simp [updateById, deleteById, hr, ih]

lemma deleteById_updateById_ne (s : Store) (m : Model) (i : String)
    (h : m.id ≠ i) :
    deleteById (updateById s m) i = updateById (deleteById s i) m := by
  induction s with
  | nil => rfl
  | cons r rest ih =>
    by_cases hr : r.id = m.id
    · have hri : ¬ r.id = i := fun hh => h (hr.symm.trans hh)
      have hmi : ¬ m.id = i := h
      simp only [updateById, deleteById, if_pos hr, if_neg hmi, if_neg hri, ih]
    · by_cases hi : r.id = i
      · simp only [updateById, deleteById, if_neg hr, if_pos hi, ih]
      · simp only [updateById, deleteById, if_neg hr, if_neg hi, ih]

lemma deleteById_idem (s : Store) (i : String) :
    deleteById (deleteById s i) i = deleteById s i := by
  induction s with
  | nil => rfl
  | cons r rest ih =>
    by_cases hr : r.id = i
    · simp [deleteById, hr, ih]
    · simp [deleteById, hr, ih]

lemma deleteById_comm (s : Store) (i j : String) :
    deleteById (deleteById s i) j = deleteById (deleteById s j) i := by
  induction s with
  | nil => rfl
  | cons r rest ih =>
    by_cases hi : r.id = i
    · by_cases hj : r.id = j
      · simp only [deleteById, if_pos hi, if_pos hj, ih]
      · simp only [deleteById, if_pos hi, if_neg hj, ih]
    · by_cases hj : r.id = j
      · simp only [deleteById, if_neg hi, if_pos hj, ih]
      · simp only [deleteById, if_neg hi, if_neg hj, ih]

lemma ucs_err_of_missing (s : Store) (cid : String)
    (hf : findById s cid = none) (now status : String) (did : Option String) :
    update_container_status s now cid status did = .error "Container not found" := by
  simp [update_container_status, hf]

lemma ucs_ok_of_found (s : Store) (cid : String) (m : Model)
    (hf : findById s cid = some m) (now status : String) (did : Option String) :
    update_container_status s now cid status did =
      .ok (updateById s
        { m with
          status := status
          updated_at := now
          docker_id := match did with
            | some d => some d
            | none => m.docker_id }) := by
  simp [update_container_status, hf]

lemma findById_updateById_found (s : Store) (cid : String) (m M : Model)
    (hf : findById s cid = some m) (hM : M.id = m.id) :
    findById (updateById s M) cid = some M := by
  have hid : m.id = cid := findById_id s cid m hf
  rw [← hid, ← hM, findById_updateById_self, hM, hid, hf]
  rfl

lemma ucs_delete (s : Store) (now cid status : String) (did : Option String)
    (db2 : Store) (h : update_container_status s now cid status did = .ok db2) :
    deleteById db2 cid = deleteById s cid := by
  cases hf : findById s cid with
  | none =>
    rw [ucs_err_of_missing s cid hf] at h
    cases h
  | some m =>
    rw [ucs_ok_of_found s cid m hf] at h
    cases h
    have hid : m.id = cid := findById_id s cid m hf
    rw [← hid]
    exact deleteById_updateById_self s _

lemma proc_self_delete (docker : DockerService) (now : String) (s : Store)
    (c : Model) :
    deleteById (process_single_container docker now s c).db c.id
      = deleteById s c.id := by
  unfold process_single_container
  repeat' (first | split | dsimp only)
  all_goals
    first
      | rfl
      | (rename_i h; exact ucs_delete _ _ _ _ _ _ h)
      | exact deleteById_idem s c.id

lemma proc_delete_comm (docker : DockerService) (now : String) (s : Store)
    (fid : String) (c : Model) (hc : c.id ≠ fid) :
    (process_single_container docker now (deleteById s fid) c).db
      = deleteById (process_single_container docker now s c).db fid := by
  have hfind : findById (deleteById s fid) c.id = findById s c.id := by
    rw [findById_deleteById]
    exact if_neg hc
  cases hf : findById s c.id with
  | none =>
    have hf2 : findById (deleteById s fid) c.id = none := hfind.trans hf
    unfold process_single_container
    simp only [ucs_err_of_missing s c.id hf,
      ucs_err_of_missing (deleteById s fid) c.id hf2]
    repeat' (first | split | dsimp only)
    all_goals
      first
        | rfl
        | exact deleteById_comm s fid c.id
  | some m =>
    have hf2 : findById (deleteById s fid) c.id = some m := hfind.trans hf
    have hMne : m.id ≠ fid := by
      rw [findById_id s c.id m hf]
      exact hc
    unfold process_single_container
    simp only [ucs_ok_of_found s c.id m hf,
      ucs_ok_of_found (deleteById s fid) c.id m hf2]
    repeat' (first | split | dsimp only)
    all_goals
      first
        | rfl
        | (refine (deleteById_updateById_ne s _ fid ?_).symm; exact hMne)
        | exact deleteById_comm s fid c.id

lemma processLoop_delete (docker : DockerService) (now : String) (fid : String) :
    ∀ (l : List Model) (s : Store) (e1 e2 : List (String × String)),
      (processLoop docker now (deleteById l fid) (deleteById s fid) e2).db
        = deleteById (processLoop docker now l s e1).db fid := by
  intro l
  induction l with
  | nil =>
    intro s e1 e2
    rfl
  | cons c rest ih =>
    intro s e1 e2
    by_cases hc : c.id = fid
    · have hself : deleteById (process_single_container docker now s c).db fid
          = deleteById s fid := by
        rw [← hc]
        exact proc_self_delete docker now s c
      calc (processLoop docker now (deleteById (c :: rest) fid)
              (deleteById s fid) e2).db
          = (processLoop docker now (deleteById rest fid)
              (deleteById s fid) e2).db := by
            simp only [deleteById, if_pos hc]
        _ = (processLoop docker now (deleteById rest fid)
              (deleteById (process_single_container docker now s c).db fid) e2).db := by
            rw [hself]
        _ = deleteById (processLoop docker now rest
              (process_single_container docker now s c).db
              (e1 ++ match (process_single_container docker now s c).err with
                | some e => [(c.id, e)]
                | none => [])).db fid := ih _ _ _
        _ = deleteById (processLoop docker now (c :: rest) s e1).db fid := by
            simp only [processLoop]
    · have hcomm := proc_delete_comm docker now s fid c hc
      calc (processLoop docker now (deleteById (c :: rest) fid)
              (deleteById s fid) e2).db
          = (processLoop docker now (c :: deleteById rest fid)
              (deleteById s fid) e2).db := by
            simp only [deleteById, if_neg hc]
        _ = (processLoop docker now (deleteById rest fid)
              (process_single_container docker now (deleteById s fid) c).db
              (e2 ++ match (process_single_container docker now (deleteById s fid) c).err with
                | some e => [(c.id, e)]
                | none => [])).db := by
            simp only [processLoop]
        _ = (processLoop docker now (deleteById rest fid)
              (deleteById (process_single_container docker now s c).db fid)
              (e2 ++ match (process_single_container docker now (deleteById s fid) c).err with
                | some e => [(c.id, e)]
                | none => [])).db := by
            rw [hcomm]
        _ = deleteById (processLoop docker now rest
              (process_single_container docker now s c).db
              (e1 ++ match (process_single_container docker now s c).err with
                | some e => [(c.id, e)]
                | none => [])).db fid := ih _ _ _
        _ = deleteById (processLoop docker now (c :: rest) s e1).db fid := by
            simp only [processLoop]


/-- Claim C1: the creation API is specified to persist the record with status
Pending and no runtime id, without invoking the driver on the request path.
The code does the opposite: `create_container` synchronously calls the driver
and persists status Created (success, with the returned handle as docker id)
or Failed (error, still persisted, answered with a 500). This theorem
evaluates the handler on both driver outcomes for the request
`{name: "web", image: "nginx"}` and exhibits the synchronous behaviour. -/
theorem C1_create_api_is_synchronous :
    create_container (drvOk "rt-1" "running") parseAll "u1" "t0" "t9" []
        { name := "web", image := "nginx" }
      = ([{ id := "u1", name := "web", image := "nginx", status := "Created",
            docker_id := some "rt-1", created_at := "t0", updated_at := "t0" }],
         [DriverCall.create "web" "nginx"],
         .ok (201, { id := "u1", name := "web", image := "nginx",
                     status := ContainerStatus.Created,
                     created_at := "t0", updated_at := "t0" }))
    ∧ create_container drvFail parseAll "u1" "t0" "t9" []
        { name := "web", image := "nginx" }
      = ([{ id := "u1", name := "web", image := "nginx", status := "Failed",
            docker_id := none, created_at := "t0", updated_at := "t0" }],
         [DriverCall.create "web" "nginx"],
         .error (500, "Docker error")) := by
  constructor
  · rfl
  · rfl

/-- Claim C2, amended: for a Running record with a runtime id, when inspect
reports a state other than "running", the reconciler persists the raw
reported string as the status, without mapping it into the enumeration and
without any Stopped default; updated_at is refreshed and the other fields
are unchanged. -/
theorem C2_running_inspect_writes_raw_state (docker : DockerService)
    (now : String) (db : Store) (c : Model) (d reported : String)
    (hstatus : c.status = "Running")
    (hid : c.docker_id = some d)
    (hfind : findById db c.id = some c)
    (hinspect : docker.get_container_status d = .ok reported)
    (hne : ¬ reported = "running") :
    findById (process_single_container docker now db c).db c.id
      = some { id := c.id, name := c.name, image := c.image, status := reported,
               docker_id := c.docker_id, created_at := c.created_at,
               updated_at := now } := by
  have hnp : ¬ c.status = "Pending" := by rw [hstatus]; decide
  have hnc : ¬ c.status = "Created" := by rw [hstatus]; decide
  unfold process_single_container
  rw [if_neg hnp, if_neg hnc, if_pos hstatus, hid]
  dsimp only
  rw [hinspect]
  dsimp only
  rw [if_neg hne, ucs_ok_of_found db c.id c hfind]
  dsimp only
  rw [hid]
  exact findById_updateById_found db c.id c _ hfind rfl

/-- Counterexample to claim C2 as stated: with inspect reporting "exited",
the persisted status is the raw string "exited", not "Stopped". -/
theorem C2_counterexample :
    findById (process_single_container (drvOk "rt-1" "exited") "t1"
        [rec1 "Running" (some "rt-1")] (rec1 "Running" (some "rt-1"))).db "c1"
      = some { id := "c1", name := "web", image := "nginx", status := "exited",
               docker_id := some "rt-1", created_at := "t0", updated_at := "t1" }
    ∧ "exited" ≠ "Stopped" := by
  constructor
  · rfl
  · decide

/-- Witness for C2 (amended) at a concrete Running record whose inspect
reports "dead". -/
theorem C2_witness :
    findById (process_single_container (drvOk "rt-1" "dead") "t1"
        [rec1 "Running" (some "rt-1")] (rec1 "Running" (some "rt-1"))).db "c1"
      = some { id := "c1", name := "web", image := "nginx", status := "dead",
               docker_id := some "rt-1", created_at := "t0", updated_at := "t1" } :=
  C2_running_inspect_writes_raw_state (drvOk "rt-1" "dead") "t1"
    [rec1 "Running" (some "rt-1")] (rec1 "Running" (some "rt-1")) "rt-1" "dead"
    rfl rfl rfl rfl (by decide)

/-- Claim C3: a Pending record whose driver creation succeeds with handle `d`
ends the pass with status Created, docker id exactly `d`, updated_at set to
the strictly later pass timestamp, and id, name, image, created_at
unchanged; no error is propagated. -/
theorem C3_pending_success_transitions (docker : DockerService) (now : String)
    (db : Store) (c : Model) (d : String)
    (hstatus : c.status = "Pending")
    (hfind : findById db c.id = some c)
    (hcreate : docker.create_container c.name c.image = .ok d)
    (hclock : c.updated_at < now) :
    (process_single_container docker now db c).err = none
    ∧ findById (process_single_container docker now db c).db c.id
        = some { id := c.id, name := c.name, image := c.image,
                 status := "Created", docker_id := some d,
                 created_at := c.created_at, updated_at := now }
    ∧ c.updated_at < now := by
  unfold process_single_container
  rw [if_pos hstatus, hcreate]
  dsimp only
  rw [ucs_ok_of_found db c.id c hfind]
  dsimp only
  exact ⟨rfl, findById_updateById_found db c.id c _ hfind rfl, hclock⟩

/-- Witness for C3: end-to-end scenario 1 of the spec, driver returning
"rt-1". -/
theorem C3_witness :
    (process_single_container (drvOk "rt-1" "running") "t1"
        [rec1 "Pending" none] (rec1 "Pending" none)).err = none
    ∧ findById (process_single_container (drvOk "rt-1" "running") "t1"
        [rec1 "Pending" none] (rec1 "Pending" none)).db "c1"
        = some { id := "c1", name := "web", image := "nginx",
                 status := "Created", docker_id := some "rt-1",
                 created_at := "t0", updated_at := "t1" }
    ∧ ("t0" : String) < "t1" :=
  C3_pending_success_transitions (drvOk "rt-1" "running") "t1"
    [rec1 "Pending" none] (rec1 "Pending" none) "rt-1"
    rfl rfl rfl (by simp only [String.lt_iff_toList_lt]; decide)

/-- Claim C4: taxonomy of driver failures. A failing creation (Pending) or
start (Created) persists status Failed with the docker id unchanged; a
failing inspect (Running) leaves the store untouched; Stopped and Failed
records never change the store whatever the driver does; a Removing record
is deleted whatever the driver does. No other status value is ever
produced by a driver failure. -/
theorem C4_driver_failure_taxonomy (docker : DockerService) (now : String)
    (db : Store) (c : Model)
    (hfind : findById db c.id = some c) :
    (c.status = "Pending" →
      ∀ e, docker.create_container c.name c.image = .error e →
        findById (process_single_container docker now db c).db c.id
          = some { id := c.id, name := c.name, image := c.image,
                   status := "Failed", docker_id := c.docker_id,
                   created_at := c.created_at, updated_at := now })
    ∧ (c.status = "Created" →
      ∀ d, c.docker_id = some d →
      ∀ e, docker.start_container d = .error e →
        findById (process_single_container docker now db c).db c.id
          = some { id := c.id, name := c.name, image := c.image,
                   status := "Failed", docker_id := c.docker_id,
                   created_at := c.created_at, updated_at := now })
    ∧ (c.status = "Running" →
      ∀ d, c.docker_id = some d →
      ∀ e, docker.get_container_status d = .error e →
        (process_single_container docker now db c).db = db)
    ∧ ((c.status = "Stopped" ∨ c.status = "Failed") →
        (process_single_container docker now db c).db = db)
    ∧ (c.status = "Removing" →
        findById (process_single_container docker now db c).db c.id = none) := by
  refine ⟨?_, ?_, ?_, ?_, ?_⟩
  · intro hp e he
    unfold process_single_container
    rw [if_pos hp, he]
    dsimp only
    rw [ucs_ok_of_found db c.id c hfind]
    dsimp only
    exact findById_updateById_found db c.id c _ hfind rfl
  · intro hp d hd e he
    have hnp : ¬ c.status = "Pending" := by rw [hp]; decide
    unfold process_single_container
    rw [if_neg hnp, if_pos hp, hd]
    dsimp only
    rw [he]
    dsimp only
    rw [ucs_ok_of_found db c.id c hfind]
    dsimp only
    rw [hd]
    exact findById_updateById_found db c.id c _ hfind rfl
  · intro hp d hd e he
    have hnp : ¬ c.status = "Pending" := by rw [hp]; decide
    have hnc : ¬ c.status = "Created" := by rw [hp]; decide
    unfold process_single_container
    rw [if_neg hnp, if_neg hnc, if_pos hp, hd]
    dsimp only
    rw [he]
  · intro hp
    have hnp : ¬ c.status = "Pending" := by
      rcases hp with h | h <;> rw [h] <;> decide
    have hnc : ¬ c.status = "Created" := by
      rcases hp with h | h <;> rw [h] <;> decide
    have hnr : ¬ c.status = "Running" := by
      rcases hp with h | h <;> rw [h] <;> decide
    have hnrm : ¬ c.status = "Removing" := by
      rcases hp with h | h <;> rw [h] <;> decide
    unfold process_single_container
    rw [if_neg hnp, if_neg hnc, if_neg hnr, if_neg hnrm, if_pos hp]
    cases c.docker_id <;> rfl
  · intro hp
    have hnp : ¬ c.status = "Pending" := by rw [hp]; decide
    have hnc : ¬ c.status = "Created" := by rw [hp]; decide
    have hnr : ¬ c.status = "Running" := by rw [hp]; decide
    unfold process_single_container
    rw [if_neg hnp, if_neg hnc, if_neg hnr, if_pos hp]
    cases c.docker_id <;> dsimp only <;>
      · rw [findById_deleteById]
        exact if_pos rfl

/-- Witness for C4: end-to-end scenario 2 of the spec, a Created record
whose start fails keeps its docker id and becomes Failed. -/
theorem C4_witness :
    findById (process_single_container drvFail "t1"
        [rec1 "Created" (some "rt-1")] (rec1 "Created" (some "rt-1"))).db "c1"
      = some { id := "c1", name := "web", image := "nginx", status := "Failed",
               docker_id := some "rt-1", created_at := "t0",
               updated_at := "t1" } :=
  (C4_driver_failure_taxonomy drvFail "t1" [rec1 "Created" (some "rt-1")]
      (rec1 "Created" (some "rt-1")) rfl).2.1 rfl "rt-1" rfl "boom" rfl

/-- Claim C5: one pass over a Removing record always deletes it from the
store and never propagates an error, for every driver behaviour; when a
runtime id is present the driver stop and remove are both attempted, in
that order, unconditionally (a stop failure cannot suppress the remove
call); when it is absent no driver call is made. -/
theorem C5_removing_always_deleted (docker : DockerService) (now : String)
    (db : Store) (c : Model)
    (hstatus : c.status = "Removing") :
    (process_single_container docker now db c).err = none
    ∧ findById (process_single_container docker now db c).db c.id = none
    ∧ (∀ d, c.docker_id = some d →
        (process_single_container docker now db c).calls
          = [DriverCall.stop d, DriverCall.remove d])
    ∧ (c.docker_id = none →
        (process_single_container docker now db c).calls = []) := by
  have hnp : ¬ c.status = "Pending" := by rw [hstatus]; decide
  have hnc : ¬ c.status = "Created" := by rw [hstatus]; decide
  have hnr : ¬ c.status = "Running" := by rw [hstatus]; decide
  unfold process_single_container
  rw [if_neg hnp, if_neg hnc, if_neg hnr, if_pos hstatus]
  cases hcd : c.docker_id with
  | none =>
    dsimp only
    refine ⟨rfl, ?_, ?_, fun _ => rfl⟩
    · rw [findById_deleteById]
      exact if_pos rfl
    · intro d hd
      cases hd
  | some d0 =>
    dsimp only
    refine ⟨rfl, ?_, ?_, ?_⟩
    · rw [findById_deleteById]
      exact if_pos rfl
    · intro d hd
      cases hd
      rfl
    · intro hd
      cases hd

/-- Witness for C5: end-to-end scenario 4 of the spec, stop fails and remove
succeeds, record gone and no error. -/
theorem C5_witness :
    (process_single_container drvStopFails "t1"
        [rec1 "Removing" (some "rt-1")] (rec1 "Removing" (some "rt-1"))).err = none
    ∧ findById (process_single_container drvStopFails "t1"
        [rec1 "Removing" (some "rt-1")] (rec1 "Removing" (some "rt-1"))).db "c1"
        = none
    ∧ (process_single_container drvStopFails "t1"
        [rec1 "Removing" (some "rt-1")] (rec1 "Removing" (some "rt-1"))).calls
        = [DriverCall.stop "rt-1", DriverCall.remove "rt-1"] := by
  have h := C5_removing_always_deleted drvStopFails "t1"
    [rec1 "Removing" (some "rt-1")] (rec1 "Removing" (some "rt-1")) rfl
  exact ⟨h.1, h.2.1, h.2.2.1 "rt-1" rfl⟩

/-- Claim C6: per-record isolation within one tick. If one listed record
fails to process (its per-record error is caught at the record boundary),
every other record of the listing still transitions exactly as it would in
a tick run without the failing record: the reduced tick (store and listing
with the failing row deleted) assigns every other id the same final row as
the full tick. -/
theorem C6_per_record_isolation (docker : DockerService) (now : String)
    (db : Store) (f : Model)
    (hf : f ∈ db)
    (hfail : (process_single_container docker now db f).err ≠ none) :
    ∀ c ∈ db, c.id ≠ f.id →
      findById (process_containers docker now db).db c.id
        = findById (process_containers docker now (deleteById db f.id)).db c.id := by
  intro c _ hc
  unfold process_containers
  rw [processLoop_delete docker now f.id db db [] [], findById_deleteById]
  exact (if_neg hc).symm

/-- Witness for C6: record c1 (Running, failing inspect) errors, record c2
(Pending, failing create) still transitions as in a tick without c1. -/
theorem C6_witness :
    findById (process_containers drvFail "t1"
        [rec1 "Running" (some "rt-1"), rec2 "Pending" none]).db "c2"
      = findById (process_containers drvFail "t1"
          (deleteById [rec1 "Running" (some "rt-1"), rec2 "Pending" none] "c1")).db
          "c2" :=
  C6_per_record_isolation drvFail "t1"
    [rec1 "Running" (some "rt-1"), rec2 "Pending" none]
    (rec1 "Running" (some "rt-1")) (by decide) (by decide)
    (rec2 "Pending" none) (by decide) (by decide)

/-- Claim C7: steady-state idempotence. Reconciling a Running record whose
inspect still reports "running" makes exactly one driver call (the inspect)
and is otherwise a no-op: the store is untouched (so status, docker id and
updated_at are unchanged), nothing is logged and no error is raised. -/
theorem C7_running_steady_state_noop (docker : DockerService) (now : String)
    (db : Store) (c : Model) (d : String)
    (hstatus : c.status = "Running")
    (hid : c.docker_id = some d)
    (hinspect : docker.get_container_status d = .ok "running") :
    process_single_container docker now db c
      = { db := db, calls := [DriverCall.inspect d], logs := [], err := none } := by
  have hnp : ¬ c.status = "Pending" := by rw [hstatus]; decide
  have hnc : ¬ c.status = "Created" := by rw [hstatus]; decide
  unfold process_single_container
  rw [if_neg hnp, if_neg hnc, if_pos hstatus, hid]
  dsimp only
  rw [hinspect]
  dsimp only
  rw [if_pos rfl]

/-- Witness for C7 at a concrete Running record with a healthy runtime. -/
theorem C7_witness :
    process_single_container (drvOk "rt-1" "running") "t1"
        [rec1 "Running" (some "rt-1")] (rec1 "Running" (some "rt-1"))
      = { db := [rec1 "Running" (some "rt-1")]
          calls := [DriverCall.inspect "rt-1"], logs := [], err := none } :=
  C7_running_steady_state_noop (drvOk "rt-1" "running") "t1"
    [rec1 "Running" (some "rt-1")] (rec1 "Running" (some "rt-1")) "rt-1"
    rfl rfl rfl

/-- Claim C8, amended: a Created record without a runtime id is skipped
silently: no driver call, no store mutation, no log entry, no error. (The
claim additionally asserts the anomaly is logged; the code has no else
branch there and logs nothing, see the counterexample.) -/
theorem C8_created_without_runtime_id_noop (docker : DockerService)
    (now : String) (db : Store) (c : Model)
    (hstatus : c.status = "Created")
    (hid : c.docker_id = none) :
    process_single_container docker now db c
      = { db := db, calls := [], logs := [], err := none } := by
  have hnp : ¬ c.status = "Pending" := by rw [hstatus]; decide
  unfold process_single_container
  rw [if_neg hnp, if_pos hstatus, hid]

/-- Counterexample to claim C8 as stated: the anomaly is not logged — the
log trace of the skipped record is empty (and the record and store are
untouched). -/
theorem C8_counterexample :
    (process_single_container drvFail "t1" [rec1 "Created" none]
        (rec1 "Created" none)).logs = []
    ∧ (process_single_container drvFail "t1" [rec1 "Created" none]
        (rec1 "Created" none)).db = [rec1 "Created" none] := by
  constructor
  · rfl
  · rfl

/-- Witness for C8 (amended) at a concrete Created record with no runtime
id. -/
theorem C8_witness :
    process_single_container drvStopFails "t1" [rec1 "Created" none]
        (rec1 "Created" none)
      = { db := [rec1 "Created" none], calls := [], logs := [], err := none } :=
  C8_created_without_runtime_id_noop drvStopFails "t1" [rec1 "Created" none]
    (rec1 "Created" none) rfl rfl

/-- Claim C9: once the shutdown flag is observed set at a tick boundary, the
loop performs no further tick, leaves the store untouched and returns
cleanly; and `shutdown` is idempotent — calling it twice equals calling it
once. -/
theorem C9_shutdown_stops_loop (docker : DockerService) (now : String)
    (signalAt : Nat → Bool) (fuel t : Nat) (db : Store)
    (hsig : signalAt t = true) :
    run_main_loop docker now signalAt (fuel + 1) db t = (db, t, true)
    ∧ ∀ b : Bool, shutdown (shutdown b) = shutdown b := by
  constructor
  · simp [run_main_loop, hsig]
  · intro b
    rfl

/-- Witness for C9: with the flag already set, five units of fuel produce
zero ticks and a clean return. -/
theorem C9_witness :
    run_main_loop (drvOk "rt-1" "running") "t1" (fun _ => true) 5
        [rec1 "Pending" none] 0
      = ([rec1 "Pending" none], 0, true) :=
  (C9_shutdown_stops_loop (drvOk "rt-1" "running") "t1" (fun _ => true) 4 0
    [rec1 "Pending" none] rfl).1

/-- Claim C10: the store-to-API conversion masks bad persisted data, each
field independently. A status string outside the six enumeration names is
reported as Pending whatever the timestamps hold; and a timestamp the
RFC 3339 parser rejects is replaced by the current time whatever the status
is; the conversion never fails. -/
theorem C10_response_masks_bad_persisted_data (parse : String → Option String)
    (now : String) (m : Model) :
    (m.status ∉
        (["Pending", "Created", "Running", "Stopped", "Failed", "Removing"]
          : List String) →
      (response_from_model parse now m).status = ContainerStatus.Pending)
    ∧ (parse m.created_at = none →
      (response_from_model parse now m).created_at = now)
    ∧ (parse m.updated_at = none →
      (response_from_model parse now m).updated_at = now) := by
  refine ⟨?_, ?_, ?_⟩
  · intro hs
    have h1 : ¬ m.status = "Pending" := fun h => hs (by rw [h]; simp)
    have h2 : ¬ m.status = "Created" := fun h => hs (by rw [h]; simp)
    have h3 : ¬ m.status = "Running" := fun h => hs (by rw [h]; simp)
    have h4 : ¬ m.status = "Stopped" := fun h => hs (by rw [h]; simp)
    have h5 : ¬ m.status = "Failed" := fun h => hs (by rw [h]; simp)
    have h6 : ¬ m.status = "Removing" := fun h => hs (by rw [h]; simp)
    unfold response_from_model status_of_string
    dsimp only
    rw [if_neg h1, if_neg h2, if_neg h3, if_neg h4, if_neg h5, if_neg h6]
  · intro hc
    unfold response_from_model
    dsimp only
    rw [hc]
    rfl
  · intro hu
    unfold response_from_model
    dsimp only
    rw [hu]
    rfl

/-- Witness for C10: a persisted status "exited" with valid timestamps is
reported as Pending (the case the reconciler actually produces), and a
record with a good status but unparseable timestamps gets both timestamps
replaced by the current time. -/
theorem C10_witness :
    (response_from_model parseAll "t9" (rec1 "exited" (some "rt-1"))).status
      = ContainerStatus.Pending
    ∧ (response_from_model parseNone "t9"
        (rec1 "Running" (some "rt-1"))).created_at = "t9"
    ∧ (response_from_model parseNone "t9"
        (rec1 "Running" (some "rt-1"))).updated_at = "t9" := by
  refine ⟨?_, ?_, ?_⟩
  · exact (C10_response_masks_bad_persisted_data parseAll "t9"
      (rec1 "exited" (some "rt-1"))).1 (by decide)
  · exact (C10_response_masks_bad_persisted_data parseNone "t9"
      (rec1 "Running" (some "rt-1"))).2.1 rfl
  · exact (C10_response_masks_bad_persisted_data parseNone "t9"
      (rec1 "Running" (some "rt-1"))).2.2 rfl
